import Mathlib

/- Verification of the generic watch-face preview renderer of this
repository (faces/generic-face/preview.py): the time context, the
template engine, the indicator angle model, the face renderer
(load / show / unload) and the LVGL virtual-filesystem driver
callbacks.  Python strings are modelled as lists of characters,
Python integers as Int, Python real arithmetic as exact rational
arithmetic over Rat, and Python exceptions as Except values.
LVGL itself is external: its objects and fonts are modelled by an
allocation heap, and external asset decoding by an environment of
success predicates. -/

namespace Preview

/-- Python strings are modelled as lists of characters. -/
abbrev Str := List Char

/-- View of a Lean string literal as the model of Python strings. -/
def pyStr (s : String) : Str := s.data

/-- Does pat occur at the head of s?  Head-matching test used by the
substring search below. -/
def leadMatch : Str → Str → Bool
  | [], _ => true
  | _ :: _, [] => false
  | p :: ps, c :: cs => p == c && leadMatch ps cs

/-- Python membership test key in text: does pat occur anywhere in s
as a contiguous substring?  An empty pat occurs in every string. -/
def occurs (pat : Str) : Str → Bool
  | [] => leadMatch pat []
  | c :: cs => leadMatch pat (c :: cs) || occurs pat cs

/-- Replace the non-overlapping occurrences of pat by rep, scanning
left to right, exactly as Python text.replace(pat, rep) does for a
nonempty pat.  The fuel argument only serves structural termination;
replaceAll passes the length of s, which is enough fuel because every
step consumes at least one character of s. -/
def repAux (pat rep : Str) : Nat → Str → Str
  | 0, s => s
  | _ + 1, [] => []
  | fuel + 1, c :: cs =>
    if !pat.isEmpty && leadMatch pat (c :: cs) then
      rep ++ repAux pat rep fuel (List.drop pat.length (c :: cs))
    else
      c :: repAux pat rep fuel cs

/-- Python text.replace(pat, rep); every placeholder key of the
registry is nonempty, for which this is the exact semantics. -/
def replaceAll (pat rep s : Str) : Str := repAux pat rep s.length s

/-- Python str(n) of an integer. -/
def intStr (n : Int) : Str := (toString n).data

/-- Left zero-padding to the given width. -/
def padZeros (width : Nat) (s : Str) : Str :=
  List.replicate (width - s.length) '0' ++ s

/-- Python format specifier 0Nd: decimal, zero-padded to width N, with
the sign counting towards the width, as in Python. -/
def fmtInt (width : Nat) (n : Int) : Str :=
  if n < 0 then '-' :: padZeros (width - 1) (toString (-n).toNat).data
  else padZeros width (toString n.toNat).data

/-- A time context whose fields have all been set.  The renderer only
calls show after set_time has run, at which point every field holds an
integer; the stateful Context object with its initially unset fields
is modelled separately as TimeCtx below. -/
structure Ctx where
  year : Int
  month : Int
  day : Int
  hour : Int
  minute : Int
  second : Int
  millisecond : Int
  weekday : Int
  yearday : Int
deriving DecidableEq

/-- Field ranges under which the Python list indexing done by the
placeholder table cannot raise IndexError: weekday indexes the seven
weekday names and month - 1 indexes the twelve month names. -/
def Ctx.Valid (c : Ctx) : Prop :=
  0 ≤ c.weekday ∧ c.weekday < 7 ∧ 1 ≤ c.month ∧ c.month ≤ 12

instance (c : Ctx) : Decidable c.Valid := by
  unfold Ctx.Valid; infer_instance

def WEEK_DAYS : List Str :=
  [pyStr "Monday", pyStr "Tuesday", pyStr "Wednesday", pyStr "Thursday",
   pyStr "Friday", pyStr "Saturday", pyStr "Sunday"]

def WEEK_DAYS_SHORT : List Str :=
  [pyStr "MON", pyStr "TUE", pyStr "WED", pyStr "THU", pyStr "FRI",
   pyStr "SAT", pyStr "SUN"]

def MONTHS : List Str :=
  [pyStr "January", pyStr "February", pyStr "March", pyStr "April",
   pyStr "May", pyStr "June", pyStr "July", pyStr "August",
   pyStr "September", pyStr "October", pyStr "November", pyStr "December"]

def MONTHS_SHORT : List Str :=
  [pyStr "JAN", pyStr "FEB", pyStr "MAR", pyStr "APR", pyStr "MAY",
   pyStr "JUN", pyStr "JUL", pyStr "AUG", pyStr "SEP", pyStr "OCT",
   pyStr "NOV", pyStr "DEC"]

/-- Python list indexing xs[i] for an in-range index (Ctx.Valid
guarantees the indices used by the placeholder table are in range). -/
def pyIndex (xs : List Str) (i : Int) : Str := xs.getD i.toNat []

/-- The UTF-8 glyph of lv.SYMBOL.BATTERY_FULL, an external constant of
the LVGL binding. -/
def BATTERY_FULL : Str := [Char.ofNat 0xF240]

/-- The placeholder registry of preview.py, in source (insertion)
order: each key maps to a pure function of the context returning its
replacement text.  The format calls of the source are modelled by
fmtInt and intStr; the single-character indexings of the D#0 and D#1
entries are total because a 02d-formatted integer always has at least
two characters. -/
def PLACEHOLDERS : List (Str × (Ctx → Str)) :=
  [(pyStr "\x7bYYYY\x7d", fun c => fmtInt 4 c.year),
   (pyStr "\x7bMM\x7d", fun c => fmtInt 2 c.month),
   (pyStr "\x7bDD\x7d", fun c => fmtInt 2 c.day),
   (pyStr "\x7bM\x7d", fun c => intStr c.month),
   (pyStr "\x7bD\x7d", fun c => intStr c.day),
   (pyStr "\x7bD#0\x7d", fun c => [(fmtInt 2 c.day).getD 0 ' ']),
   (pyStr "\x7bD#1\x7d", fun c => [(fmtInt 2 c.day).getD 1 ' ']),
   (pyStr "\x7bHH\x7d", fun c => fmtInt 2 c.hour),
   (pyStr "\x7bmm\x7d", fun c => fmtInt 2 c.minute),
   (pyStr "\x7bss\x7d", fun c => fmtInt 2 c.second),
   (pyStr "\x7bday\x7d", fun c => pyIndex WEEK_DAYS c.weekday),
   (pyStr "\x7bday_short\x7d", fun c => pyIndex WEEK_DAYS_SHORT c.weekday),
   (pyStr "\x7bmonth\x7d", fun c => pyIndex MONTHS (c.month - 1)),
   (pyStr "\x7bmonth_short\x7d", fun c => pyIndex MONTHS_SHORT (c.month - 1)),
   (pyStr "\x7bbattery_percent\x7d", fun _ => pyStr "100"),
   (pyStr "\x7bbattery_icon\x7d", fun _ => BATTERY_FULL),
   (pyStr "\x7bbattery_icon_colorized\x7d",
     fun _ => pyStr "#00FF00 " ++ BATTERY_FULL ++ pyStr "#")]

/-- The placeholder substitution loop of Renderer.show: for every
registry key, in registry order, if the key occurs in the text then
replace all of its occurrences by the transform result. -/
def resolve (ctx : Ctx) (text : Str) : Str :=
  PLACEHOLDERS.foldl
    (fun t kv => if occurs kv.1 t then replaceAll kv.1 (kv.2 ctx) t else t)
    text

/-- Python int() applied to a real-valued number: truncation towards
zero. -/
def pyTrunc (q : Rat) : Int := if q < 0 then ⌈q⌉ else ⌊q⌋

/-- Modelled from the spec: round_to_tenth_degree read as rounding to
the nearest integer number of tenths of a degree, halves rounding up. -/
def specRound10 (q : Rat) : Int := ⌊q * 10 + 1 / 2⌋

/-- The 4-tuple of numeric ranges of a handle:
(min_value, max_value, min_angle, max_angle). -/
structure RangesT where
  min_value : Rat
  max_value : Rat
  min_angle : Rat
  max_angle : Rat
deriving DecidableEq

def HANDLES_DEFAULT_RANGES : List (String × RangesT) :=
  [("month", ⟨1, 12, 0, 360⟩), ("day", ⟨1, 31, 0, 360⟩),
   ("day0", ⟨1, 31, 0, 360⟩), ("day1", ⟨1, 31, 0, 360⟩),
   ("hour", ⟨0, 12, 0, 360⟩), ("minute", ⟨0, 60, 0, 360⟩),
   ("second", ⟨0, 60, 0, 360⟩)]

/-- The stepped value-extraction table.  Python integer % corresponds
to Int % (both yield a non-negative remainder for the modulus 12
used here), and float division is modelled by exact Rat division. -/
def HANDLES_GET_VALUES : List (String × (Ctx → Rat)) :=
  [("month", fun c => (c.month : Rat) - 1),
   ("day", fun c => (c.day : Rat) - 1),
   ("day0", fun c => (c.day : Rat) - 1),
   ("day1", fun c => (c.day : Rat)),
   ("hour", fun c => ((c.hour % 12 : Int) : Rat) + (c.minute : Rat) / 60),
   ("minute", fun c => (c.minute : Rat)),
   ("second", fun c => (c.second : Rat))]

/-- The smooth value-extraction table. -/
def HANDLES_GET_SMOOTH_VALUES : List (String × (Ctx → Rat)) :=
  [("month", fun c => (c.month : Rat) + (c.day : Rat) / 31 - 1),
   ("day", fun c => (c.day : Rat) + (c.hour : Rat) / 24 - 1),
   ("day0", fun c => (c.day : Rat) + (c.hour : Rat) / 24 - 1),
   ("day1", fun c => (c.day : Rat) + (c.hour : Rat) / 24),
   ("hour", fun c => ((c.hour % 12 : Int) : Rat) + (c.minute : Rat) / 60
      + (c.second : Rat) / 3600),
   ("minute", fun c => (c.minute : Rat) + (c.second : Rat) / 60),
   ("second", fun c => (c.second : Rat) + (c.millisecond : Rat) / 1000)]

/-- Selects the stepped or smooth extraction table according to the
per-face flag, then the extraction function of the source name; an
unknown or missing source yields the constant zero function, exactly
as source_values.get(source, lambda default zero) does. -/
def getValue (smooth : Bool) (source : Option String) (c : Ctx) : Rat :=
  let table := if smooth then HANDLES_GET_SMOOTH_VALUES else HANDLES_GET_VALUES
  match source with
  | some s =>
    match List.lookup s table with
    | some f => f c
    | none => 0
  | none => 0

/-- The angle computed and applied by Renderer.show for one handle:
int((min_angle + ((min_value + value) / max_value) * max_angle) * 10). -/
def handleAngle (smooth : Bool) (source : Option String) (r : RangesT)
    (c : Ctx) : Int :=
  let value := getValue smooth source c
  pyTrunc ((r.min_angle + ((r.min_value + value) / r.max_value) * r.max_angle) * 10)

/-- Stated from the spec formula of its section 4.3 with
round_to_tenth_degree read as round-to-nearest: the angle a handle
should receive according to claim C1 as written. -/
def specAngleRound (smooth : Bool) (source : Option String) (r : RangesT)
    (c : Ctx) : Int :=
  let value := getValue smooth source c
  specRound10 (r.min_angle + ((r.min_value + value) / r.max_value) * r.max_angle)

/-- The amended reading of the spec formula: the same expression
brought to tenths of a degree and truncated towards zero by Python
int(), which is what the code computes. -/
def specAngleTrunc (smooth : Bool) (source : Option String) (r : RangesT)
    (c : Ctx) : Int :=
  let value := getValue smooth source c
  pyTrunc ((r.min_angle + ((r.min_value + value) / r.max_value) * r.max_angle) * 10)

/-- Python exceptions, by kind, with their message. -/
inductive PyErr where
  | keyErr (msg : String)
  | valueErr (msg : String)
  | typeErr (msg : String)
  | runtimeErr (msg : String)
  | exc (msg : String)
deriving DecidableEq

/-- ASCII hexadecimal digit test. -/
def isHexDigit (c : Char) : Bool :=
  c.isDigit || ('a' ≤ c && c ≤ 'f') || ('A' ≤ c && c ≤ 'F')

/-- Numeric value of a hexadecimal digit. -/
def hexVal (c : Char) : Nat :=
  if c.isDigit then c.toNat - 48 else if 'a' ≤ c then c.toNat - 87 else c.toNat - 55

/-- Digits of a base-16 integer literal after the first digit: Python
allows single underscores between digits. -/
def hexTail (acc : Nat) : Str → Option Nat
  | [] => some acc
  | '_' :: c :: cs => if isHexDigit c then hexTail (16 * acc + hexVal c) cs else none
  | c :: cs => if isHexDigit c then hexTail (16 * acc + hexVal c) cs else none

/-- Python int(s, 16): strip surrounding whitespace, accept an optional
sign, an optional 0x or 0X base marker (optionally followed by one
underscore), then hexadecimal digits with single underscores allowed
between digits; anything else raises ValueError. -/
def pyInt16 (s : Str) : Except PyErr Int :=
  let t := ((s.dropWhile Char.isWhitespace).reverse.dropWhile Char.isWhitespace).reverse
  let signed : Int × Str :=
    match t with
    | '+' :: r => (1, r)
    | '-' :: r => (-1, r)
    | r => (1, r)
  let body : Str :=
    match signed.2 with
    | '0' :: 'x' :: '_' :: c :: r =>
      if isHexDigit c then c :: r else '0' :: 'x' :: '_' :: c :: r
    | '0' :: 'x' :: r => r
    | '0' :: 'X' :: '_' :: c :: r =>
      if isHexDigit c then c :: r else '0' :: 'X' :: '_' :: c :: r
    | '0' :: 'X' :: r => r
    | r => r
  match body with
  | [] => Except.error (PyErr.valueErr "invalid literal for int() with base 16")
  | c :: cs =>
    if isHexDigit c then
      match hexTail (hexVal c) cs with
      | some v => Except.ok (signed.1 * (v : Int))
      | none => Except.error (PyErr.valueErr "invalid literal for int() with base 16")
    else Except.error (PyErr.valueErr "invalid literal for int() with base 16")

/-- Renderer hex_color: int(value with leading hash characters
stripped, 16), handed to lv.color_hex; the opaque colour object is
modelled by the integer itself. -/
def hex_color (value : Str) : Except PyErr Int :=
  pyInt16 (value.dropWhile (fun c => c == '#'))

/-- Stated from the words of claim C10: a string consisting of one
leading hash character followed by one or more hexadecimal digits. -/
def hashPrefixedHexDigits (s : Str) : Bool :=
  match s with
  | '#' :: t => !t.isEmpty && t.all isHexDigit
  | _ => false

/-- The LVGL object and font heaps: monotone allocation counters plus
the lists of currently existing (created and not destroyed) drawable
objects and fonts. -/
structure LvWorld where
  nextObj : Nat
  aliveObjs : List Nat
  nextFont : Nat
  aliveFonts : List Nat
deriving DecidableEq

def LvWorld.empty : LvWorld := ⟨0, [], 0, []⟩

/-- Creation of a drawable object (lv.obj, lv.label, lv.image, lv.gif). -/
def allocObj (w : LvWorld) : Nat × LvWorld :=
  (w.nextObj, { w with nextObj := w.nextObj + 1, aliveObjs := w.aliveObjs ++ [w.nextObj] })

/-- Creation of a font (tiny_ttf, binfont or imgfont). -/
def allocFont (w : LvWorld) : Nat × LvWorld :=
  (w.nextFont, { w with nextFont := w.nextFont + 1, aliveFonts := w.aliveFonts ++ [w.nextFont] })

/-- Destruction of a font (tiny_ttf_destroy, binfont_destroy or
imgfont_destroy). -/
def destroyFont (w : LvWorld) (f : Nat) : LvWorld :=
  { w with aliveFonts := w.aliveFonts.erase f }

/-- External asset environment: whether setting an image source at a
virtual path succeeds (decoding), and whether loading the font file at
a path succeeds. -/
structure Env where
  image_ok : String → Bool
  font_ok : String → Bool

/-- A font reference as returned by load_font: one of the internal
fonts of the binding, or a font created (or cached) by this renderer. -/
inductive FontR where
  | internal (name : String)
  | cached (id : Nat)
deriving DecidableEq

/-- A Label scene item: the drawable text node, the unresolved
template string, and the last written resolved string. -/
structure LabelSI where
  lv_label : Nat
  text : Str
  value : Str
deriving DecidableEq

/-- A Handle scene item: the drawable image node, the source-field
name and its numeric ranges. -/
structure HandleSI where
  image : Nat
  source : Option String
  ranges : RangesT
deriving DecidableEq

/-- The mutable state of a Renderer: the configuration fields set by
load, the font caches, and the four scene-item tracking lists. -/
structure RendererSt where
  container : Option Nat
  update_interval_ms : Int
  use_smooth_handles : Bool
  fonts : List (String × Nat)
  image_fonts : List Nat
  labels : List LabelSI
  handles : List HandleSI
  images : List Nat
  gifs : List Nat
deriving DecidableEq

/-- The state established by Renderer init. -/
def RendererSt.init : RendererSt :=
  { container := none, update_interval_ms := 1000, use_smooth_handles := false,
    fonts := [], image_fonts := [], labels := [], handles := [], images := [], gifs := [] }

/-- The background record of a face descriptor. -/
structure BackgroundCfg where
  color : Option Str
  image : Option String

/-- One item record of a face descriptor; absent JSON keys are none.
The numeric range overrides are JSON numbers, modelled as rationals. -/
structure ItemCfg where
  type : Option String := none
  text : Option Str := none
  color : Option Str := none
  x : Option Int := none
  y : Option Int := none
  align : Option String := none
  textalign : Option String := none
  font : Option String := none
  font_size : Option Int := none
  imagefont : Option (List (Char × String)) := none
  file : Option String := none
  image : Option String := none
  pivot_x : Option Int := none
  pivot_y : Option Int := none
  source : Option String := none
  min_value : Option Rat := none
  max_value : Option Rat := none
  min_angle : Option Rat := none
  max_angle : Option Rat := none

/-- A parsed face descriptor. -/
structure FaceConfig where
  version : String
  update_interval_ms : Option Int := none
  smooth_handles : Option Bool := none
  background : Option BackgroundCfg := none
  items : List ItemCfg := []

/-- Renderer show_image: creates an lv.image object, then sets its
source; with a failing asset the exception is raised after the object
was already created. -/
def show_image (env : Env) (w : LvWorld) (path : String) :
    Except PyErr Nat × LvWorld :=
  let (oid, w1) := allocObj w
  if env.image_ok path then (Except.ok oid, w1)
  else (Except.error (PyErr.exc ("image source failed: " ++ path)), w1)

def INTERNAL_FONTS : List String := [".default", ".montserrat_14", ".montserrat_16"]

def LVGL_FONTS_PATH : String := "S:fonts/"

/-- Renderer load_font: a falsy (missing or empty) font name yields no
font; internal names map to built-in fonts; otherwise the cache is
consulted under the key name/size, and on a miss the font file is
loaded (tiny_ttf for .ttf names, binfont otherwise, both modelled by
the environment) — a loader failure is caught, logged and yields no
font, while success caches and returns the new font. -/
def load_font (env : Env) (st : RendererSt) (w : LvWorld) (item : ItemCfg) :
    Option FontR × RendererSt × LvWorld :=
  match item.font with
  | none => (none, st, w)
  | some name =>
    if name = "" then (none, st, w)
    else if INTERNAL_FONTS.contains name then (some (FontR.internal name), st, w)
    else
      let size := item.font_size.getD 0
      let fid := name ++ "/" ++ toString size
      match List.lookup fid st.fonts with
      | some f => (some (FontR.cached f), st, w)
      | none =>
        if env.font_ok (LVGL_FONTS_PATH ++ name) then
          let (f, w1) := allocFont w
          (some (FontR.cached f), { st with fonts := st.fonts ++ [(fid, f)] }, w1)
        else (none, st, w)

/-- Renderer load_image_font: when the item carries an imagefont
glyph map, an image font is created over it (imgfont_create registers
the glyph callback and does not itself touch the filesystem, so its
creation always succeeds) and recorded for destruction at unload. -/
def load_image_font (st : RendererSt) (w : LvWorld) (item : ItemCfg) :
    Option FontR × RendererSt × LvWorld :=
  match item.imagefont with
  | none => (none, st, w)
  | some _ =>
    let (f, w1) := allocFont w
    (some (FontR.cached f), { st with image_fonts := st.image_fonts ++ [f] }, w1)

/-- Renderer load_label: computes the colour (which may raise), then
creates the label object, loads the item font (or, failing that, the
image font), and appends the Label scene item carrying the template
text and an empty cached value. -/
def load_label (env : Env) (st : RendererSt) (w : LvWorld) (item : ItemCfg) :
    Except PyErr Unit × RendererSt × LvWorld :=
  let text := item.text.getD []
  match hex_color (item.color.getD (pyStr "#000")) with
  | Except.error e => (Except.error e, st, w)
  | Except.ok _ =>
    let (lid, w1) := allocObj w
    let next : RendererSt × LvWorld :=
      match load_font env st w1 item with
      | (some _, st1, w2) => (st1, w2)
      | (none, st1, w2) =>
        let (_, st2, w3) := load_image_font st1 w2 item
        (st2, w3)
    (Except.ok (),
     { next.1 with labels := next.1.labels ++ [{ lv_label := lid, text := text, value := [] }] },
     next.2)

/-- Renderer load_image: shows the image file of the item (an absent
file key makes Python format None into the path) and appends it; a
failing asset propagates out of load. -/
def load_image_item (env : Env) (st : RendererSt) (w : LvWorld) (path : String)
    (item : ItemCfg) : Except PyErr Unit × RendererSt × LvWorld :=
  let filename := item.file.getD "None"
  match show_image env w ("S:" ++ path ++ "/" ++ filename) with
  | (Except.ok oid, w1) => (Except.ok (), { st with images := st.images ++ [oid] }, w1)
  | (Except.error e, w1) => (Except.error e, st, w1)

/-- Renderer load_gif: creates the animated drawable, sets its source
and appends it; failures inside the external gif decoder are logged by
LVGL rather than raised, so creation is modelled as succeeding. -/
def load_gif_item (st : RendererSt) (w : LvWorld) :
    Except PyErr Unit × RendererSt × LvWorld :=
  let (gid, w1) := allocObj w
  (Except.ok (), { st with gifs := st.gifs ++ [gid] }, w1)

/-- The default ranges for a handle source name, from the fixed table,
with the catch-all (0, 100, 0, 360) for unknown or missing sources. -/
def defaultRanges (source : Option String) : RangesT :=
  match source with
  | some s => (List.lookup s HANDLES_DEFAULT_RANGES).getD ⟨0, 100, 0, 360⟩
  | none => ⟨0, 100, 0, 360⟩

/-- Renderer load_handle: resolves the ranges (defaults overridden
field by field), shows the handle image (a failing asset propagates),
applies the pivot correction (geometric only, no tracked state) and
appends the Handle scene item. -/
def load_handle_item (env : Env) (st : RendererSt) (w : LvWorld) (path : String)
    (item : ItemCfg) : Except PyErr Unit × RendererSt × LvWorld :=
  let filename := item.image.getD "None"
  let source := item.source
  let dr := defaultRanges source
  let ranges : RangesT :=
    ⟨item.min_value.getD dr.min_value, item.max_value.getD dr.max_value,
     item.min_angle.getD dr.min_angle, item.max_angle.getD dr.max_angle⟩
  match show_image env w ("S:" ++ path ++ "/" ++ filename) with
  | (Except.ok oid, w1) =>
    (Except.ok (),
     { st with handles := st.handles ++ [{ image := oid, source := source, ranges := ranges }] },
     w1)
  | (Except.error e, w1) => (Except.error e, st, w1)

/-- The per-item dispatch of Renderer.load: a falsy or unknown type is
skipped, the four known types go to their builder. -/
def load_item (env : Env) (st : RendererSt) (w : LvWorld) (path : String)
    (item : ItemCfg) : Except PyErr Unit × RendererSt × LvWorld :=
  match item.type with
  | none => (Except.ok (), st, w)
  | some t =>
    if t = "label" then load_label env st w item
    else if t = "image" then load_image_item env st w path item
    else if t = "gif" then load_gif_item st w
    else if t = "handle" then load_handle_item env st w path item
    else (Except.ok (), st, w)

/-- The item loop of Renderer.load: items are loaded one by one in
descriptor order; an exception aborts the loop, keeping the partial
state already built. -/
def load_items (env : Env) (path : String) :
    RendererSt → LvWorld → List ItemCfg → Except PyErr Unit × RendererSt × LvWorld
  | st, w, [] => (Except.ok (), st, w)
  | st, w, item :: rest =>
    match load_item env st w path item with
    | (Except.ok _, st1, w1) => load_items env path st1 w1 rest
    | (Except.error e, st1, w1) => (Except.error e, st1, w1)

/-- Renderer.load: creates the root container, validates the version
(raising before any renderer field is touched on a mismatch), adopts
the update interval and the smooth flag, processes the background
colour (which may raise) and background image (whose failure is
re-raised as a hard error; on success the image becomes the new
positioning container), then loads the items in order. -/
def Renderer.load (st : RendererSt) (w : LvWorld) (env : Env) (path : String)
    (config : FaceConfig) : Except PyErr Unit × RendererSt × LvWorld :=
  let (cid, w1) := allocObj w
  if config.version ≠ "1" then
    (Except.error (PyErr.exc ("Not supported version: " ++ config.version)), st, w1)
  else
    let st1 := { st with
      update_interval_ms := config.update_interval_ms.getD 1000,
      use_smooth_handles := config.smooth_handles.getD false }
    let bg : Except PyErr Unit × Nat × RendererSt × LvWorld :=
      match config.background with
      | none => (Except.ok (), cid, st1, w1)
      | some b =>
        let colorStep : Except PyErr Unit :=
          match b.color with
          | some cstr =>
            match hex_color cstr with
            | Except.ok _ => Except.ok ()
            | Except.error e => Except.error e
          | none => Except.ok ()
        match colorStep with
        | Except.error e => (Except.error e, cid, st1, w1)
        | Except.ok _ =>
          match b.image with
          | none => (Except.ok (), cid, st1, w1)
          | some img =>
            let ipath := "S:" ++ path ++ "/" ++ img
            match show_image env w1 ipath with
            | (Except.ok iid, w2) =>
              (Except.ok (), iid, { st1 with images := st1.images ++ [iid] }, w2)
            | (Except.error _, w2) =>
              (Except.error (PyErr.exc ("Image not found: " ++ ipath)), cid, st1, w2)
    match bg with
    | (Except.error e, _, st2, w2) => (Except.error e, st2, w2)
    | (Except.ok _, cont, st2, w2) =>
      load_items env path { st2 with container := some cont } w2 config.items

/-- Renderer.unload: the source iterates the images, handles and gifs
with del x, which in Python only unbinds the loop variable and
destroys no LVGL object; the fonts and image fonts are actually
destroyed (tiny_ttf_destroy or binfont_destroy by key shape, and
imgfont_destroy); finally all six tracking collections are cleared. -/
def Renderer.unload (st : RendererSt) (w : LvWorld) : RendererSt × LvWorld :=
  let w1 := st.fonts.foldl (fun wa kv => destroyFont wa kv.2) w
  let w2 := st.image_fonts.foldl (fun wa f => destroyFont wa f) w1
  ({ st with images := [], handles := [], gifs := [], labels := [],
             fonts := [], image_fonts := [] }, w2)

/-- An observable write performed by Renderer.show: a set_text on a
label drawable or a set_rotation on a handle drawable. -/
inductive Eff where
  | setText (obj : Nat) (text : Str)
  | setRotation (obj : Nat) (angle : Int)
deriving DecidableEq

/-- Is the effect a rotation write? -/
def Eff.isRot : Eff → Bool
  | Eff.setRotation _ _ => true
  | _ => false

/-- The label loop of Renderer.show: resolve the template; write the
drawable and update the cached value only when the resolved text
differs from the cached value. -/
def showLabels (c : Ctx) : List LabelSI → List LabelSI × List Eff
  | [] => ([], [])
  | l :: ls =>
    let text := resolve c l.text
    let rest := showLabels c ls
    if text ≠ l.value then
      ({ l with value := text } :: rest.1, Eff.setText l.lv_label text :: rest.2)
    else (l :: rest.1, rest.2)

/-- Renderer.show: updates every label (with change suppression),
then rotates every handle unconditionally to the angle of the
indicator model. -/
def Renderer.show (st : RendererSt) (c : Ctx) : RendererSt × List Eff :=
  let lbl := showLabels c st.labels
  let rot := st.handles.map
    (fun h => Eff.setRotation h.image (handleAngle st.use_smooth_handles h.source h.ranges c))
  ({ st with labels := lbl.1 }, lbl.2 ++ rot)

/-- The eight-integer tuple adopted by Context.set_time (the layout of
time.localtime()). -/
structure TimeTuple where
  year : Int
  month : Int
  day : Int
  hour : Int
  minute : Int
  second : Int
  weekday : Int
  yearday : Int
deriving DecidableEq

/-- The stateful Context object: its fields are class attributes that
start unset (Python None, modelled by none) and hold integers after
the first set_time; prev_ticks_ms is the tick counter memo. -/
structure TimeCtx where
  year : Option Int := none
  month : Option Int := none
  day : Option Int := none
  hour : Option Int := none
  minute : Option Int := none
  second : Option Int := none
  millisecond : Option Int := none
  weekday : Option Int := none
  yearday : Option Int := none
  prev_ticks_ms : Int := 0
deriving DecidableEq

def TimeCtx.init : TimeCtx := {}

/-- MicroPython time.ticks_diff over the 2^30 tick period of the port:
the signed distance from b to a modulo the period. -/
def ticks_diff (a b : Int) : Int :=
  ((a - b + 2 ^ 29) % 2 ^ 30) - 2 ^ 29

/-- Context.set_time: with no (or a falsy) tuple the real clock sample
is adopted, otherwise the given tuple, in both cases verbatim into the
eight fields; then, in both modes, the virtual millisecond derivation
runs: when prev_ticks_ms is positive the tick delta is added to
millisecond (raising TypeError when millisecond is still unset),
prev_ticks_ms is remembered, and millisecond resets to zero whenever
the stored second changed.  The outcome is returned next to the state
reached, because Python leaves the partial mutations in place when the
addition raises. -/
def TimeCtx.set_time (st : TimeCtx) (time_tuple : Option TimeTuple)
    (localtime : TimeTuple) (ticks_now : Int) : Except PyErr Unit × TimeCtx :=
  let t := time_tuple.getD localtime
  let prev_second := st.second
  let st1 := { st with
    year := some t.year, month := some t.month, day := some t.day,
    hour := some t.hour, minute := some t.minute, second := some t.second,
    weekday := some t.weekday, yearday := some t.yearday }
  let msRes : Except PyErr (Option Int) :=
    if st1.prev_ticks_ms > 0 then
      match st1.millisecond with
      | some m => Except.ok (some (m + ticks_diff ticks_now st1.prev_ticks_ms))
      | none => Except.error (PyErr.typeErr "unsupported operand type for +=")
    else Except.ok st1.millisecond
  match msRes with
  | Except.error e => (Except.error e, st1)
  | Except.ok ms1 =>
    let st2 := { st1 with millisecond := ms1, prev_ticks_ms := ticks_now }
    if prev_second ≠ st2.second then (Except.ok (), { st2 with millisecond := some 0 })
    else (Except.ok (), st2)

/-- The LVGL filesystem result codes used by the driver. -/
inductive FsRes where
  | ok
  | fs_err
deriving DecidableEq

/-- lv.FS_MODE.WR. -/
def FS_MODE_WR : Nat := 1

/-- lv.FS_MODE.RD. -/
def FS_MODE_RD : Nat := 2

/-- The virtual file handle: the native file object (abstracted to an
identifier) paired with the original virtual path kept for
diagnostics. -/
structure LVGL_FS_File where
  file : Nat
  path : String
deriving DecidableEq

/-- LVGL_FS_Driver.open_cb: maps the LVGL mode to a Python open mode,
raising RuntimeError on any unsupported mode; then opens the native
file (openNative models the built-in open at the chosen mode), and a
native failure is re-raised as RuntimeError rather than translated;
success returns the handle.  The result type separates a returned
value (ok) from an exception crossing the boundary (error). -/
def open_cb (path : String) (mode : Nat)
    (openNative : String → Except PyErr Nat) : Except PyErr LVGL_FS_File :=
  let p_mode : Except PyErr String :=
    if mode = FS_MODE_WR then Except.ok "wb"
    else if mode = FS_MODE_RD then Except.ok "rb"
    else if mode = (FS_MODE_WR ||| FS_MODE_RD) then Except.ok "rb+"
    else Except.error (PyErr.runtimeErr
      ("open_cb(" ++ path ++ ", " ++ toString mode ++ ") - open mode error, invalid mode"))
  match p_mode with
  | Except.error e => Except.error e
  | Except.ok pm =>
    match openNative pm with
    | Except.ok f => Except.ok { file := f, path := path }
    | Except.error _ => Except.error (PyErr.runtimeErr
        ("open_cb(" ++ path ++ ", " ++ pm ++ ") error"))

/-- LVGL_FS_Driver.read_cb: the native readinto and the byte-count
write-back run under try; any exception is translated to FS_ERR, and
success returns OK next to the byte count written back. -/
def read_cb (readinto : Except PyErr Nat) : FsRes × Option Nat :=
  match readinto with
  | Except.ok n => (FsRes.ok, some n)
  | Except.error _ => (FsRes.fs_err, none)

/-- LVGL_FS_Driver.write_cb: as read_cb, for the native write. -/
def write_cb (writeNative : Except PyErr Nat) : FsRes × Option Nat :=
  match writeNative with
  | Except.ok n => (FsRes.ok, some n)
  | Except.error _ => (FsRes.fs_err, none)

/-- LVGL_FS_Driver.seek_cb: the native seek under try; exceptions
become FS_ERR. -/
def seek_cb (seekNative : Except PyErr Unit) : FsRes :=
  match seekNative with
  | Except.ok _ => FsRes.ok
  | Except.error _ => FsRes.fs_err

/-- LVGL_FS_Driver.tell_cb: the native tell and the position
write-back under try; exceptions become FS_ERR. -/
def tell_cb (tellNative : Except PyErr Nat) : FsRes × Option Nat :=
  match tellNative with
  | Except.ok n => (FsRes.ok, some n)
  | Except.error _ => (FsRes.fs_err, none)

/-- LVGL_FS_Driver.close_cb: the native close under try; exceptions
become FS_ERR. -/
def close_cb (closeNative : Except PyErr Unit) : FsRes :=
  match closeNative with
  | Except.ok _ => FsRes.ok
  | Except.error _ => FsRes.fs_err

/-- State extension: every tracking list and cache of a is an initial
segment of the corresponding one of b. -/
def StExt (a b : RendererSt) : Prop :=
  (∃ t, b.labels = a.labels ++ t) ∧ (∃ t, b.images = a.images ++ t) ∧
  (∃ t, b.gifs = a.gifs ++ t) ∧ (∃ t, b.handles = a.handles ++ t) ∧
  (∃ t, b.fonts = a.fonts ++ t) ∧ (∃ t, b.image_fonts = a.image_fonts ++ t)

theorem stExt_refl (a : RendererSt) : StExt a a := by
  refine ⟨⟨[], ?_⟩, ⟨[], ?_⟩, ⟨[], ?_⟩, ⟨[], ?_⟩, ⟨[], ?_⟩, ⟨[], ?_⟩⟩ <;> simp

theorem stExt_trans {a b c : RendererSt} (h1 : StExt a b) (h2 : StExt b c) :
    StExt a c := by
  obtain ⟨⟨t1, e1⟩, ⟨t2, e2⟩, ⟨t3, e3⟩, ⟨t4, e4⟩, ⟨t5, e5⟩, ⟨t6, e6⟩⟩ := h1
  obtain ⟨⟨u1, f1⟩, ⟨u2, f2⟩, ⟨u3, f3⟩, ⟨u4, f4⟩, ⟨u5, f5⟩, ⟨u6, f6⟩⟩ := h2
  exact ⟨⟨t1 ++ u1, by rw [f1, e1, List.append_assoc]⟩,
         ⟨t2 ++ u2, by rw [f2, e2, List.append_assoc]⟩,
         ⟨t3 ++ u3, by rw [f3, e3, List.append_assoc]⟩,
         ⟨t4 ++ u4, by rw [f4, e4, List.append_assoc]⟩,
         ⟨t5 ++ u5, by rw [f5, e5, List.append_assoc]⟩,
         ⟨t6 ++ u6, by rw [f6, e6, List.append_assoc]⟩⟩

theorem stExt_fonts (st : RendererSt) (x : List (String × Nat)) :
    StExt st { st with fonts := st.fonts ++ x } :=
  ⟨⟨[], by simp⟩, ⟨[], by simp⟩, ⟨[], by simp⟩, ⟨[], by simp⟩, ⟨x, rfl⟩, ⟨[], by simp⟩⟩

theorem stExt_image_fonts (st : RendererSt) (x : List Nat) :
    StExt st { st with image_fonts := st.image_fonts ++ x } :=
  ⟨⟨[], by simp⟩, ⟨[], by simp⟩, ⟨[], by simp⟩, ⟨[], by simp⟩, ⟨[], by simp⟩, ⟨x, rfl⟩⟩

theorem stExt_labels (st : RendererSt) (x : List LabelSI) :
    StExt st { st with labels := st.labels ++ x } :=
  ⟨⟨x, rfl⟩, ⟨[], by simp⟩, ⟨[], by simp⟩, ⟨[], by simp⟩, ⟨[], by simp⟩, ⟨[], by simp⟩⟩

theorem stExt_images (st : RendererSt) (x : List Nat) :
    StExt st { st with images := st.images ++ x } :=
  ⟨⟨[], by simp⟩, ⟨x, rfl⟩, ⟨[], by simp⟩, ⟨[], by simp⟩, ⟨[], by simp⟩, ⟨[], by simp⟩⟩

theorem stExt_gifs (st : RendererSt) (x : List Nat) :
    StExt st { st with gifs := st.gifs ++ x } :=
  ⟨⟨[], by simp⟩, ⟨[], by simp⟩, ⟨x, rfl⟩, ⟨[], by simp⟩, ⟨[], by simp⟩, ⟨[], by simp⟩⟩

theorem stExt_handles (st : RendererSt) (x : List HandleSI) :
    StExt st { st with handles := st.handles ++ x } :=
  ⟨⟨[], by simp⟩, ⟨[], by simp⟩, ⟨[], by simp⟩, ⟨x, rfl⟩, ⟨[], by simp⟩, ⟨[], by simp⟩⟩

theorem load_font_ext (env : Env) (st : RendererSt) (w : LvWorld) (item : ItemCfg) :
    StExt st (load_font env st w item).2.1 := by
  unfold load_font
  cases item.font with
  | none => exact stExt_refl st
  | some name =>
    by_cases h1 : name = ""
    · simp only [h1, if_pos rfl]; exact stExt_refl st
    · simp only [if_neg h1]
      by_cases h2 : INTERNAL_FONTS.contains name
      · simp only [h2, if_pos rfl]; exact stExt_refl st
      · simp only [h2]
        cases List.lookup (name ++ "/" ++ toString (item.font_size.getD 0)) st.fonts with
        | some f => simp only []; exact stExt_refl st
        | none =>
          by_cases h3 : env.font_ok (LVGL_FONTS_PATH ++ name)
          · simp only [h3, if_pos rfl]; exact stExt_fonts st _
          · simp only [h3]; exact stExt_refl st

theorem load_image_font_ext (st : RendererSt) (w : LvWorld) (item : ItemCfg) :
    StExt st (load_image_font st w item).2.1 := by
  unfold load_image_font
  cases item.imagefont with
  | none => exact stExt_refl st
  | some g => exact stExt_image_fonts st _

theorem load_label_ext (env : Env) (st : RendererSt) (w : LvWorld) (item : ItemCfg) :
    StExt st (load_label env st w item).2.1 := by
  unfold load_label
  cases hc : hex_color (item.color.getD (pyStr "#000")) with
  | error e => exact stExt_refl st
  | ok v =>
    simp only []
    rcases hlf : load_font env st (allocObj w).2 item with ⟨fo, st1, w2⟩
    have hext1 : StExt st st1 := by
      have := load_font_ext env st (allocObj w).2 item
      rw [hlf] at this; exact this
    cases fo with
    | some f =>
      simp only [hlf]
      exact stExt_trans hext1 (stExt_labels st1 _)
    | none =>
      simp only [hlf]
      rcases hlif : load_image_font st1 w2 item with ⟨fo2, st2, w3⟩
      have hext2 : StExt st1 st2 := by
        have := load_image_font_ext st1 w2 item
        rw [hlif] at this; exact this
      simp only [hlif]
      exact stExt_trans (stExt_trans hext1 hext2) (stExt_labels st2 _)

theorem load_image_item_ext (env : Env) (st : RendererSt) (w : LvWorld)
    (path : String) (item : ItemCfg) :
    StExt st (load_image_item env st w path item).2.1 := by
  unfold load_image_item
  rcases hsi : show_image env w ("S:" ++ path ++ "/" ++ item.file.getD "None") with ⟨r, w1⟩
  cases r with
  | ok oid => simp only [hsi]; exact stExt_images st _
  | error e => simp only [hsi]; exact stExt_refl st

theorem load_gif_item_ext (st : RendererSt) (w : LvWorld) :
    StExt st (load_gif_item st w).2.1 := by
  unfold load_gif_item
  exact stExt_gifs st _

theorem load_handle_item_ext (env : Env) (st : RendererSt) (w : LvWorld)
    (path : String) (item : ItemCfg) :
    StExt st (load_handle_item env st w path item).2.1 := by
  unfold load_handle_item
  rcases hsi : show_image env w ("S:" ++ path ++ "/" ++ item.image.getD "None") with ⟨r, w1⟩
  cases r with
  | ok oid => simp only [hsi]; exact stExt_handles st _
  | error e => simp only [hsi]; exact stExt_refl st

theorem load_item_ext (env : Env) (st : RendererSt) (w : LvWorld)
    (path : String) (item : ItemCfg) :
    StExt st (load_item env st w path item).2.1 := by
  unfold load_item
  cases item.type with
  | none => exact stExt_refl st
  | some t =>
    by_cases h1 : t = "label"
    · simp only [h1, if_pos rfl]; exact load_label_ext env st w item
    · simp only [if_neg h1]
      by_cases h2 : t = "image"
      · simp only [h2, if_pos rfl]; exact load_image_item_ext env st w path item
      · simp only [if_neg h2]
        by_cases h3 : t = "gif"
        · simp only [h3, if_pos rfl]; exact load_gif_item_ext st w
        · simp only [if_neg h3]
          by_cases h4 : t = "handle"
          · simp only [h4, if_pos rfl]; exact load_handle_item_ext env st w path item
          · simp only [if_neg h4]; exact stExt_refl st

theorem load_items_ext (env : Env) (path : String) (items : List ItemCfg) :
    ∀ (st : RendererSt) (w : LvWorld), StExt st (load_items env path st w items).2.1 := by
  induction items with
  | nil => intro st w; exact stExt_refl st
  | cons item rest ih =>
    intro st w
    unfold load_items
    rcases hli : load_item env st w path item with ⟨r, st1, w1⟩
    have hext1 : StExt st st1 := by
      have := load_item_ext env st w path item
      rw [hli] at this; exact this
    cases r with
    | ok u => simp only []; exact stExt_trans hext1 (ih st1 w1)
    | error e => simp only []; exact hext1

theorem renderer_load_ext (st : RendererSt) (w : LvWorld) (env : Env)
    (path : String) (config : FaceConfig) :
    StExt st (Renderer.load st w env path config).2.1 := by
  unfold Renderer.load
  rcases ha : allocObj w with ⟨cid, w1⟩
  simp only [ha]
  by_cases hv : config.version ≠ "1"
  · rw [if_pos hv]; exact stExt_refl st
  · rw [if_neg hv]
    have hbase : StExt st { st with
        update_interval_ms := config.update_interval_ms.getD 1000,
        use_smooth_handles := config.smooth_handles.getD false } :=
      ⟨⟨[], by simp⟩, ⟨[], by simp⟩, ⟨[], by simp⟩, ⟨[], by simp⟩, ⟨[], by simp⟩, ⟨[], by simp⟩⟩
    set st1 := { st with
        update_interval_ms := config.update_interval_ms.getD 1000,
        use_smooth_handles := config.smooth_handles.getD false } with hst1
    have hcont : ∀ (st2 : RendererSt) (cont : Nat) (w2 : LvWorld), StExt st st2 →
        StExt st (load_items env path { st2 with container := some cont } w2 config.items).2.1 := by
      intro st2 cont w2 hext
      have hc : StExt st2 { st2 with container := some cont } :=
        ⟨⟨[], by simp⟩, ⟨[], by simp⟩, ⟨[], by simp⟩, ⟨[], by simp⟩, ⟨[], by simp⟩, ⟨[], by simp⟩⟩
      exact stExt_trans (stExt_trans hext hc) (load_items_ext env path config.items _ _)
    cases config.background with
    | none => simp only []; exact hcont st1 _ _ hbase
    | some b =>
      simp only []
      cases hcs : (match b.color with
        | some cstr =>
          match hex_color cstr with
          | Except.ok _ => Except.ok ()
          | Except.error e => Except.error e
        | none => Except.ok ()) with
      | error e => simp only []; exact hbase
      | ok u =>
        simp only []
        cases b.image with
        | none => simp only []; exact hcont st1 _ _ hbase
        | some img =>
          simp only []
          rcases hsi : show_image env w1 ("S:" ++ path ++ "/" ++ img) with ⟨r, w2⟩
          cases r with
          | ok iid =>
            simp only [hsi]
            exact hcont { st1 with images := st1.images ++ [iid] } _ _
              (stExt_trans hbase (stExt_images st1 _))
          | error e => simp only [hsi]; exact hbase

theorem lookup_append {l1 l2 : List (String × Nat)} {k : String} {v : Nat}
    (h : List.lookup k l1 = some v) : List.lookup k (l1 ++ l2) = some v := by
  induction l1 with
  | nil => simp [List.lookup] at h
  | cons p rest ih =>
    rcases p with ⟨a, b⟩
    simp only [List.lookup, List.cons_append] at h ⊢
    cases hk : (k == a) with
    | true => rw [hk] at h; simpa [hk] using h
    | false => rw [hk] at h; simpa [hk] using ih h

theorem foldl_resolve_keep (c : Ctx) (l : List (Str × (Ctx → Str))) (s : Str)
    (h : ∀ kv ∈ l, occurs kv.1 s = false) :
    l.foldl (fun t kv => if occurs kv.1 t then replaceAll kv.1 (kv.2 c) t else t) s = s := by
  induction l with
  | nil => rfl
  | cons kv rest ih =>
    have h1 : occurs kv.1 s = false := h kv (by simp)
    simp only [List.foldl, h1, Bool.false_eq_true, if_false]
    exact ih fun kv2 hm => h kv2 (by simp [hm])

theorem foldl_resolve_congr (c1 c2 : Ctx) (l : List (Str × (Ctx → Str)))
    (h : ∀ kv ∈ l, kv.2 c1 = kv.2 c2) (s : Str) :
    l.foldl (fun t kv => if occurs kv.1 t then replaceAll kv.1 (kv.2 c1) t else t) s
      = l.foldl (fun t kv => if occurs kv.1 t then replaceAll kv.1 (kv.2 c2) t else t) s := by
  induction l generalizing s with
  | nil => rfl
  | cons kv rest ih =>
    have h1 : kv.2 c1 = kv.2 c2 := h kv (by simp)
    simp only [List.foldl, h1]
    exact ih (fun kv2 hm => h kv2 (by simp [hm])) _

theorem placeholders_congr (c1 c2 : Ctx)
    (hy : c1.year = c2.year) (hmo : c1.month = c2.month) (hd : c1.day = c2.day)
    (hh : c1.hour = c2.hour) (hmi : c1.minute = c2.minute) (hs : c1.second = c2.second)
    (hw : c1.weekday = c2.weekday) :
    ∀ kv ∈ PLACEHOLDERS, kv.2 c1 = kv.2 c2 := by
  intro kv hkv
  simp only [PLACEHOLDERS, List.mem_cons, List.not_mem_nil, or_false] at hkv
  rcases hkv with rfl | rfl | rfl | rfl | rfl | rfl | rfl | rfl | rfl | rfl | rfl | rfl |
    rfl | rfl | rfl | rfl | rfl <;>
    simp only [hy, hmo, hd, hh, hmi, hs, hw]

theorem resolve_congr (c1 c2 : Ctx) (t : Str)
    (hy : c1.year = c2.year) (hmo : c1.month = c2.month) (hd : c1.day = c2.day)
    (hh : c1.hour = c2.hour) (hmi : c1.minute = c2.minute) (hs : c1.second = c2.second)
    (hw : c1.weekday = c2.weekday) :
    resolve c1 t = resolve c2 t := by
  unfold resolve
  exact foldl_resolve_congr c1 c2 PLACEHOLDERS
    (placeholders_congr c1 c2 hy hmo hd hh hmi hs hw) t

theorem showLabels_cons_pos (c : Ctx) (l : LabelSI) (ls : List LabelSI)
    (h : resolve c l.text ≠ l.value) :
    showLabels c (l :: ls)
      = ({ l with value := resolve c l.text } :: (showLabels c ls).1,
         Eff.setText l.lv_label (resolve c l.text) :: (showLabels c ls).2) := by
  simp only [showLabels]
  rw [if_pos h]

theorem showLabels_cons_neg (c : Ctx) (l : LabelSI) (ls : List LabelSI)
    (h : resolve c l.text = l.value) :
    showLabels c (l :: ls) = (l :: (showLabels c ls).1, (showLabels c ls).2) := by
  simp only [showLabels]
  rw [if_neg (not_not_intro h)]

theorem showLabels_fst (c : Ctx) (ls : List LabelSI) :
    (showLabels c ls).1 = ls.map (fun l => { l with value := resolve c l.text }) := by
  induction ls with
  | nil => rfl
  | cons l ls ih =>
    rw [List.map_cons]
    by_cases h : resolve c l.text ≠ l.value
    · rw [showLabels_cons_pos c l ls h]
      show _ :: (showLabels c ls).1 = _
      rw [ih]
    · push_neg at h
      rw [showLabels_cons_neg c l ls h]
      show l :: (showLabels c ls).1 = _
      rw [ih]
      have hl : ({ l with value := resolve c l.text } : LabelSI) = l := by
        rcases l with ⟨a, b, v⟩
        simp only at h
        simp [h]
      rw [hl]

theorem showLabels_snd_nil (c : Ctx) (ls : List LabelSI)
    (h : ∀ l ∈ ls, resolve c l.text = l.value) : (showLabels c ls).2 = [] := by
  induction ls with
  | nil => rfl
  | cons l ls ih =>
    have h1 : resolve c l.text = l.value := h l (by simp)
    rw [showLabels_cons_neg c l ls h1]
    exact ih fun l2 hm => h l2 (by simp [hm])

theorem showLabels_snd_noRot (c : Ctx) (ls : List LabelSI) :
    ∀ e ∈ (showLabels c ls).2, Eff.isRot e = false := by
  induction ls with
  | nil => intro e he; simp [showLabels] at he
  | cons l ls ih =>
    intro e he
    by_cases h : resolve c l.text ≠ l.value
    · rw [showLabels_cons_pos c l ls h] at he
      rcases List.mem_cons.mp he with rfl | hm
      · rfl
      · exact ih e hm
    · push_neg at h
      rw [showLabels_cons_neg c l ls h] at he
      exact ih e he

theorem show_handles_eq (st : RendererSt) (c : Ctx) :
    ((Renderer.show st c).1).handles = st.handles := rfl

theorem show_filter_rot (st : RendererSt) (c : Ctx) :
    (Renderer.show st c).2.filter Eff.isRot
      = st.handles.map
          (fun h => Eff.setRotation h.image
            (handleAngle st.use_smooth_handles h.source h.ranges c)) := by
  simp only [Renderer.show, List.filter_append]
  have h1 : (showLabels c st.labels).2.filter Eff.isRot = [] := by
    rw [List.filter_eq_nil_iff]
    intro e he
    simp [showLabels_snd_noRot c st.labels e he]
  have h2 : (st.handles.map
      (fun h => Eff.setRotation h.image
        (handleAngle st.use_smooth_handles h.source h.ranges c))).filter Eff.isRot
      = st.handles.map
          (fun h => Eff.setRotation h.image
            (handleAngle st.use_smooth_handles h.source h.ranges c)) := by
    rw [List.filter_eq_self]
    intro e he
    rcases List.mem_map.mp he with ⟨hd, _, rfl⟩
    rfl
  rw [h1, h2, List.nil_append]

theorem load_version_ne (st : RendererSt) (w : LvWorld) (env : Env) (path : String)
    (config : FaceConfig) (h : config.version ≠ "1") :
    Renderer.load st w env path config
      = (Except.error (PyErr.exc ("Not supported version: " ++ config.version)), st,
         (allocObj w).2) := by
  unfold Renderer.load
  rcases ha : allocObj w with ⟨cid, w1⟩
  simp only [ha]
  rw [if_pos h]

/-- C3: a descriptor whose version field is any string other than "1" makes
load fail with an exception, and the renderer state is left exactly as it was;
in particular, after a failed load into a freshly initialized renderer all four
scene-item tracking lists are empty. -/
theorem C3_version_error_leaves_no_items (st : RendererSt) (w : LvWorld) (env : Env)
    (path : String) (config : FaceConfig) (h : config.version ≠ "1") :
    (∃ e, (Renderer.load st w env path config).1 = Except.error e) ∧
    (Renderer.load st w env path config).2.1 = st ∧
    (Renderer.load RendererSt.init w env path config).2.1.labels = [] ∧
    (Renderer.load RendererSt.init w env path config).2.1.images = [] ∧
    (Renderer.load RendererSt.init w env path config).2.1.gifs = [] ∧
    (Renderer.load RendererSt.init w env path config).2.1.handles = [] := by
  rw [load_version_ne st w env path config h,
      load_version_ne RendererSt.init w env path config h]
  exact ⟨⟨_, rfl⟩, rfl, rfl, rfl, rfl, rfl⟩

/-- Witness for C3 at the concrete descriptor version "2". -/
theorem C3_version_error_leaves_no_items_witness :
    (("2" : String) ≠ "1") ∧
    ((∃ e, (Renderer.load RendererSt.init LvWorld.empty ⟨fun _ => true, fun _ => true⟩
        "f" { version := "2" }).1 = Except.error e) ∧
     (Renderer.load RendererSt.init LvWorld.empty ⟨fun _ => true, fun _ => true⟩
        "f" { version := "2" }).2.1 = RendererSt.init ∧
     (Renderer.load RendererSt.init LvWorld.empty ⟨fun _ => true, fun _ => true⟩
        "f" { version := "2" }).2.1.labels = [] ∧
     (Renderer.load RendererSt.init LvWorld.empty ⟨fun _ => true, fun _ => true⟩
        "f" { version := "2" }).2.1.images = [] ∧
     (Renderer.load RendererSt.init LvWorld.empty ⟨fun _ => true, fun _ => true⟩
        "f" { version := "2" }).2.1.gifs = [] ∧
     (Renderer.load RendererSt.init LvWorld.empty ⟨fun _ => true, fun _ => true⟩
        "f" { version := "2" }).2.1.handles = []) :=
  ⟨by decide,
   C3_version_error_leaves_no_items RendererSt.init LvWorld.empty
     ⟨fun _ => true, fun _ => true⟩ "f" { version := "2" } (by decide)⟩

/-- C4: evaluating the code at the failing input: a version-1 face with one
image item.  Load succeeds, creating drawable 0 (the root container) and
drawable 1 (the image scene item, tracked in the images list); unload clears
the tracking lists but destroys no drawable — both objects are still alive
afterwards, because the del statements of the source only unbind the loop
variable.  This refutes the invariant that every scene item drawable is
destroyed during unload. -/
theorem C4_unload_keeps_drawables :
    (Renderer.load RendererSt.init LvWorld.empty ⟨fun _ => true, fun _ => true⟩ "f"
        { version := "1", items := [{ type := some "image", file := some "a.png" }] }).1
      = Except.ok () ∧
    (Renderer.load RendererSt.init LvWorld.empty ⟨fun _ => true, fun _ => true⟩ "f"
        { version := "1", items := [{ type := some "image", file := some "a.png" }] }).2.1.images
      = [1] ∧
    (Renderer.load RendererSt.init LvWorld.empty ⟨fun _ => true, fun _ => true⟩ "f"
        { version := "1", items := [{ type := some "image", file := some "a.png" }] }).2.2.aliveObjs
      = [0, 1] ∧
    (Renderer.unload
        (Renderer.load RendererSt.init LvWorld.empty ⟨fun _ => true, fun _ => true⟩ "f"
          { version := "1", items := [{ type := some "image", file := some "a.png" }] }).2.1
        (Renderer.load RendererSt.init LvWorld.empty ⟨fun _ => true, fun _ => true⟩ "f"
          { version := "1", items := [{ type := some "image", file := some "a.png" }] }).2.2).2.aliveObjs
      = [0, 1] ∧
    (Renderer.unload
        (Renderer.load RendererSt.init LvWorld.empty ⟨fun _ => true, fun _ => true⟩ "f"
          { version := "1", items := [{ type := some "image", file := some "a.png" }] }).2.1
        (Renderer.load RendererSt.init LvWorld.empty ⟨fun _ => true, fun _ => true⟩ "f"
          { version := "1", items := [{ type := some "image", file := some "a.png" }] }).2.2).1.images
      = [] :=
  ⟨rfl, rfl, rfl, rfl, rfl⟩

/-- C5 counterexample: with the unsupported open mode 0 (not WR, RD or their
union), open_cb raises a RuntimeError — an exception crossing the boundary —
instead of returning a code of the error enum, refuting the claim that every
callback failure, including an unsupported open mode, is translated and
returned. -/
theorem C5_open_cb_raises :
    open_cb "face.json" 0 (fun _ => Except.ok 7)
      = Except.error (PyErr.runtimeErr
          "open_cb(face.json, 0) - open mode error, invalid mode") := rfl

/-- C5 amended: the read, write, seek, tell and close callbacks translate every
native failure to the FS_ERR code and return it (and return OK on success),
but open_cb raises instead: a RuntimeError for an unsupported mode and a
RuntimeError re-wrapping a failed native open. -/
theorem C5_amended :
    (∀ e, read_cb (Except.error e) = (FsRes.fs_err, none)) ∧
    (∀ n, read_cb (Except.ok n) = (FsRes.ok, some n)) ∧
    (∀ e, write_cb (Except.error e) = (FsRes.fs_err, none)) ∧
    (∀ n, write_cb (Except.ok n) = (FsRes.ok, some n)) ∧
    (∀ e, seek_cb (Except.error e) = FsRes.fs_err) ∧
    (seek_cb (Except.ok ()) = FsRes.ok) ∧
    (∀ e, tell_cb (Except.error e) = (FsRes.fs_err, none)) ∧
    (∀ n, tell_cb (Except.ok n) = (FsRes.ok, some n)) ∧
    (∀ e, close_cb (Except.error e) = FsRes.fs_err) ∧
    (close_cb (Except.ok ()) = FsRes.ok) ∧
    (∀ (path : String) (mode : Nat) (f : String → Except PyErr Nat),
       mode ≠ FS_MODE_WR → mode ≠ FS_MODE_RD → mode ≠ (FS_MODE_WR ||| FS_MODE_RD) →
       ∃ m, open_cb path mode f = Except.error (PyErr.runtimeErr m)) ∧
    (∀ (path : String) (f : String → Except PyErr Nat) (e : PyErr),
       f "rb" = Except.error e →
       ∃ m, open_cb path FS_MODE_RD f = Except.error (PyErr.runtimeErr m)) := by
  refine ⟨fun e => rfl, fun n => rfl, fun e => rfl, fun n => rfl, fun e => rfl, rfl,
    fun e => rfl, fun n => rfl, fun e => rfl, rfl, ?_, ?_⟩
  · intro path mode f h1 h2 h3
    refine ⟨"open_cb(" ++ path ++ ", " ++ toString mode ++ ") - open mode error, invalid mode", ?_⟩
    unfold open_cb
    rw [if_neg h1, if_neg h2, if_neg h3]
  · intro path f e hf
    refine ⟨"open_cb(" ++ path ++ ", " ++ "rb" ++ ") error", ?_⟩
    unfold open_cb
    rw [if_neg (by decide : FS_MODE_RD ≠ FS_MODE_WR), if_pos rfl]
    simp only [hf]

/-- Witness for the C5 amended statement: close translates a concrete failure
to FS_ERR, and open_cb raises at the concrete invalid mode 0. -/
theorem C5_amended_witness :
    ((0 : Nat) ≠ FS_MODE_WR ∧ (0 : Nat) ≠ FS_MODE_RD ∧ (0 : Nat) ≠ (FS_MODE_WR ||| FS_MODE_RD)) ∧
    (∃ m, open_cb "p" 0 (fun _ => Except.ok 7) = Except.error (PyErr.runtimeErr m)) ∧
    close_cb (Except.error (PyErr.exc "boom")) = FsRes.fs_err := by
  obtain ⟨hr1, hr2, hw1, hw2, hs1, hs2, ht1, ht2, hc1, hc2, hinv, hopen⟩ := C5_amended
  exact ⟨⟨by decide, by decide, by decide⟩,
    hinv "p" 0 (fun _ => Except.ok 7) (by decide) (by decide) (by decide),
    hc1 (PyErr.exc "boom")⟩

/-- C10 counterexample: the string 0xff is not a hash-prefixed string of
hexadecimal digits, yet hex_color accepts it (Python int with base 16 admits a
0x prefix), refuting the claim that every colour string not of that shape makes
hex_color raise. -/
theorem C10_hex_color_accepts_0xff :
    hex_color (pyStr "0xff") = Except.ok 255 ∧
    hashPrefixedHexDigits (pyStr "0xff") = false :=
  ⟨rfl, rfl⟩

/-- C10 amended: hex_color fails exactly when the hash-stripped string is not
a Python base-16 integer literal (so red fails, while strings such as 0xff are
accepted); such a failing colour on the background or on a label item aborts
the whole load with that error, while a missing item font is caught, logged
and skipped, load succeeding. -/
theorem C10_amended :
    (∀ (s : Str) (e : PyErr), pyInt16 (s.dropWhile (fun c => c == '#')) = Except.error e →
       hex_color s = Except.error e) ∧
    (∀ (st : RendererSt) (w : LvWorld) (env : Env) (path : String)
       (config : FaceConfig) (b : BackgroundCfg) (cstr : Str) (e : PyErr),
       config.version = "1" → config.background = some b → b.color = some cstr →
       hex_color cstr = Except.error e →
       (Renderer.load st w env path config).1 = Except.error e) ∧
    (∀ (st : RendererSt) (w : LvWorld) (env : Env) (path : String)
       (config : FaceConfig) (item : ItemCfg) (cstr : Str) (e : PyErr),
       config.version = "1" → config.background = none → config.items = [item] →
       item.type = some "label" → item.color = some cstr →
       hex_color cstr = Except.error e →
       (Renderer.load st w env path config).1 = Except.error e) ∧
    (∀ (st : RendererSt) (w : LvWorld) (env : Env) (path : String)
       (config : FaceConfig) (item : ItemCfg) (name : String),
       config.version = "1" → config.background = none → config.items = [item] →
       item.type = some "label" → item.color = none → item.imagefont = none →
       item.font = some name → name ≠ "" → INTERNAL_FONTS.contains name = false →
       List.lookup (name ++ "/" ++ toString (item.font_size.getD 0)) st.fonts = none →
       env.font_ok (LVGL_FONTS_PATH ++ name) = false →
       (Renderer.load st w env path config).1 = Except.ok ()) := by
  refine ⟨?_, ?_, ?_, ?_⟩
  · intro s e h
    exact h
  · intro st w env path config b cstr e hv hbg hcol hhex
    unfold Renderer.load
    rcases ha : allocObj w with ⟨cid, w1⟩
    simp only [ha]
    rw [if_neg (by simp [hv])]
    simp only [hbg, hcol, hhex]
  · intro st w env path config item cstr e hv hbg hitems htype hcol hhex
    unfold Renderer.load
    rcases ha : allocObj w with ⟨cid, w1⟩
    simp only [ha]
    rw [if_neg (by simp [hv])]
    simp only [hbg, hitems]
    unfold load_items load_item
    simp only [htype]
    rw [if_pos trivial]
    unfold load_label
    simp only [hcol, Option.getD_some, hhex]
  · intro st w env path config item name hv hbg hitems htype hcol himf hfont hne hint hlk henv
    unfold Renderer.load
    rcases ha : allocObj w with ⟨cid, w1⟩
    simp only [ha]
    rw [if_neg (by simp [hv])]
    simp only [hbg, hitems]
    unfold load_items load_item
    simp only [htype]
    rw [if_pos trivial]
    unfold load_label
    have hc : hex_color ((none : Option Str).getD (pyStr "#000")) = Except.ok 0 := rfl
    simp only [hcol, hc]
    unfold load_font
    simp only [hfont, hne, hint, hlk, henv]
    unfold load_image_font
    simp only [himf]
    unfold load_items
    rfl

/-- Witness for the C10 amended statement: the colour red makes hex_color fail,
and a face whose background colour is red fails to load with that error. -/
theorem C10_amended_witness :
    (({ version := "1", background := some ⟨some (pyStr "red"), none⟩ } : FaceConfig).version = "1" ∧
     hex_color (pyStr "red")
       = Except.error (PyErr.valueErr "invalid literal for int() with base 16")) ∧
    (Renderer.load RendererSt.init LvWorld.empty ⟨fun _ => true, fun _ => true⟩ "f"
        { version := "1", background := some ⟨some (pyStr "red"), none⟩ }).1
      = Except.error (PyErr.valueErr "invalid literal for int() with base 16") := by
  refine ⟨⟨rfl, rfl⟩, ?_⟩
  exact C10_amended.2.1 RendererSt.init LvWorld.empty ⟨fun _ => true, fun _ => true⟩ "f"
    { version := "1", background := some ⟨some (pyStr "red"), none⟩ }
    ⟨some (pyStr "red"), none⟩ (pyStr "red")
    (PyErr.valueErr "invalid literal for int() with base 16") rfl rfl rfl rfl

/-- C1 counterexample: a stepped minute handle with ranges (0, 8, 0, 27) at
minute 1 (every arithmetic step is exactly representable in binary floating
point, so the rational model coincides with the Python float evaluation):
show applies rotation 33, while the spec formula under round-to-nearest
yields 34 — the code truncates with int() instead of rounding. -/
theorem C1_show_truncates_not_rounds :
    (Renderer.show
        { RendererSt.init with
            handles := [{ image := 0, source := some "minute", ranges := ⟨0, 8, 0, 27⟩ }] }
        ⟨2023, 1, 1, 0, 1, 0, 0, 0, 1⟩).2
      = [Eff.setRotation 0 33] ∧
    specAngleRound false (some "minute") ⟨0, 8, 0, 27⟩ ⟨2023, 1, 1, 0, 1, 0, 0, 0, 1⟩ = 34 ∧
    (33 : Int) ≠ 34 := by
  refine ⟨?_, ?_, by decide⟩
  · simp only [Renderer.show, showLabels, List.map]
    have h1 : handleAngle false (some "minute") ⟨0, 8, 0, 27⟩ ⟨2023, 1, 1, 0, 1, 0, 0, 0, 1⟩
        = 33 := by
      simp [handleAngle, getValue, HANDLES_GET_VALUES, List.lookup, pyTrunc]
      norm_num
    simp [RendererSt.init, h1]
  · simp [specAngleRound, getValue, HANDLES_GET_VALUES, List.lookup, specRound10]
    norm_num

/-- C1 amended: for well-formed handles (nonzero max_value, so Python does not
raise ZeroDivisionError) and a valid context, show applies to every handle
exactly the spec formula with round_to_tenth_degree read as Python int()
truncation towards zero, the value being the extraction result of the stepped
or smooth table as selected by the face flag. -/
theorem C1_amended_rotation_truncated (st : RendererSt) (c : Ctx)
    (hW : ∀ h ∈ st.handles, h.ranges.max_value ≠ 0) (hV : c.Valid) :
    (Renderer.show st c).2.filter Eff.isRot
      = st.handles.map (fun h => Eff.setRotation h.image
          (specAngleTrunc st.use_smooth_handles h.source h.ranges c)) := by
  rw [show_filter_rot]
  rfl

/-- Witness for the C1 amended statement at a second handle with the default
ranges and a concrete valid context. -/
theorem C1_amended_rotation_truncated_witness :
    ((∀ h ∈ ({ RendererSt.init with
          handles := [{ image := 0, source := some "second", ranges := ⟨0, 60, 0, 360⟩ }] }
            : RendererSt).handles,
        h.ranges.max_value ≠ 0) ∧
      Ctx.Valid ⟨2023, 1, 1, 0, 1, 7, 0, 0, 1⟩) ∧
    (Renderer.show
        { RendererSt.init with
            handles := [{ image := 0, source := some "second", ranges := ⟨0, 60, 0, 360⟩ }] }
        ⟨2023, 1, 1, 0, 1, 7, 0, 0, 1⟩).2.filter Eff.isRot
      = ({ RendererSt.init with
            handles := [{ image := 0, source := some "second", ranges := ⟨0, 60, 0, 360⟩ }] }
          : RendererSt).handles.map (fun h => Eff.setRotation h.image
            (specAngleTrunc false h.source h.ranges ⟨2023, 1, 1, 0, 1, 7, 0, 0, 1⟩)) := by
  have hW : ∀ h ∈ ({ RendererSt.init with
      handles := [{ image := 0, source := some "second", ranges := ⟨0, 60, 0, 360⟩ }] }
        : RendererSt).handles, h.ranges.max_value ≠ 0 := by
    intro h hm
    simp only [List.mem_singleton] at hm
    subst hm
    simp
  have hV : Ctx.Valid ⟨2023, 1, 1, 0, 1, 7, 0, 0, 1⟩ := by decide
  exact ⟨⟨hW, hV⟩, C1_amended_rotation_truncated _ _ hW hV⟩

/-- C2 counterexample: a month handle with ranges (1, 2, 0, 360) at month 2
extracts value 1, equal to min_value (all arithmetic exact in binary floating
point); show applies rotation 3600, not min_angle scaled to tenths of a degree
(which is 0). -/
theorem C2_min_value_not_min_angle :
    getValue false (some "month") ⟨2023, 2, 1, 0, 0, 0, 0, 0, 32⟩ = 1 ∧
    (Renderer.show
        { RendererSt.init with
            handles := [{ image := 0, source := some "month", ranges := ⟨1, 2, 0, 360⟩ }] }
        ⟨2023, 2, 1, 0, 0, 0, 0, 0, 32⟩).2
      = [Eff.setRotation 0 3600] ∧
    (3600 : Int) ≠ 0 := by
  refine ⟨?_, ?_, by decide⟩
  · simp [getValue, HANDLES_GET_VALUES, List.lookup]
    norm_num
  · simp only [Renderer.show, showLabels, List.map]
    have h1 : handleAngle false (some "month") ⟨1, 2, 0, 360⟩ ⟨2023, 2, 1, 0, 0, 0, 0, 0, 32⟩
        = 3600 := by
      simp [handleAngle, getValue, HANDLES_GET_VALUES, List.lookup, pyTrunc]
      norm_num
    simp [RendererSt.init, h1]

/-- C2 amended: when min_value is zero and the extracted value equals it, the
computed angle is min_angle scaled to tenths of a degree (under the int()
truncation); for a nonzero min_value the claimed property fails because of the
min_value + value numerator. -/
theorem C2_amended_min_angle_at_zero_min (smooth : Bool) (source : Option String)
    (mx mia mxa : Rat) (c : Ctx) (hmx : mx ≠ 0)
    (hval : getValue smooth source c = 0) :
    handleAngle smooth source ⟨0, mx, mia, mxa⟩ c = pyTrunc (mia * 10) := by
  unfold handleAngle
  rw [hval]
  norm_num

/-- Witness for the C2 amended statement: a stepped hour handle at midnight
extracts value 0 = min_value, and the angle is min_angle (0) in tenths. -/
theorem C2_amended_min_angle_at_zero_min_witness :
    ((12 : Rat) ≠ 0 ∧ getValue false (some "hour") ⟨2023, 1, 1, 0, 0, 0, 0, 0, 1⟩ = 0) ∧
    handleAngle false (some "hour") ⟨0, 12, 0, 360⟩ ⟨2023, 1, 1, 0, 0, 0, 0, 0, 1⟩
      = pyTrunc ((0 : Rat) * 10) := by
  have h1 : (12 : Rat) ≠ 0 := by simp
  have h2 : getValue false (some "hour") ⟨2023, 1, 1, 0, 0, 0, 0, 0, 1⟩ = 0 := by
    simp [getValue, HANDLES_GET_VALUES, List.lookup]
  exact ⟨⟨h1, h2⟩, C2_amended_min_angle_at_zero_min false (some "hour") 12 0 360 _ h1 h2⟩

/-- C6 counterexample: two synthetic set_time calls with the same 8-tuple.
The first call (ticks 100) resets millisecond to 0 because the stored second
changed from its unset initial state; the second call (ticks 150) leaves the
second unchanged, so the tick-counter derivation runs even in synthetic mode
and millisecond becomes 50 — not the caller-supplied 0 that the claim says
synthetic mode preserves. -/
theorem C6_synthetic_millisecond_drifts :
    (TimeCtx.set_time
        (TimeCtx.set_time TimeCtx.init (some ⟨2023, 1, 1, 12, 0, 0, 0, 1⟩)
          ⟨0, 0, 0, 0, 0, 0, 0, 0⟩ 100).2
        (some ⟨2023, 1, 1, 12, 0, 0, 0, 1⟩) ⟨0, 0, 0, 0, 0, 0, 0, 0⟩ 150).1
      = Except.ok () ∧
    (TimeCtx.set_time
        (TimeCtx.set_time TimeCtx.init (some ⟨2023, 1, 1, 12, 0, 0, 0, 1⟩)
          ⟨0, 0, 0, 0, 0, 0, 0, 0⟩ 100).2
        (some ⟨2023, 1, 1, 12, 0, 0, 0, 1⟩) ⟨0, 0, 0, 0, 0, 0, 0, 0⟩ 150).2.millisecond
      = some 50 ∧
    some (50 : Int) ≠ some (0 : Int) := by
  refine ⟨rfl, ?_, by decide⟩
  rfl

/-- C6 amended: set_time with a synthetic tuple adopts all eight tuple fields
verbatim and remembers the tick counter, but the millisecond derivation runs
in synthetic mode too: millisecond resets to 0 whenever the stored second
changes, and otherwise (same second) accumulates the tick-counter delta when a
previous tick value is recorded, remaining untouched only when none is. -/
theorem C6_amended_millisecond_runs_in_synthetic_mode (st : TimeCtx) (t lt : TimeTuple)
    (ticks : Int) (hok : (TimeCtx.set_time st (some t) lt ticks).1 = Except.ok ()) :
    (TimeCtx.set_time st (some t) lt ticks).2.year = some t.year ∧
    (TimeCtx.set_time st (some t) lt ticks).2.month = some t.month ∧
    (TimeCtx.set_time st (some t) lt ticks).2.day = some t.day ∧
    (TimeCtx.set_time st (some t) lt ticks).2.hour = some t.hour ∧
    (TimeCtx.set_time st (some t) lt ticks).2.minute = some t.minute ∧
    (TimeCtx.set_time st (some t) lt ticks).2.second = some t.second ∧
    (TimeCtx.set_time st (some t) lt ticks).2.weekday = some t.weekday ∧
    (TimeCtx.set_time st (some t) lt ticks).2.yearday = some t.yearday ∧
    (TimeCtx.set_time st (some t) lt ticks).2.prev_ticks_ms = ticks ∧
    (st.second ≠ some t.second →
      (TimeCtx.set_time st (some t) lt ticks).2.millisecond = some 0) ∧
    (st.second = some t.second →
      (TimeCtx.set_time st (some t) lt ticks).2.millisecond
        = if 0 < st.prev_ticks_ms
          then st.millisecond.map (fun m => m + ticks_diff ticks st.prev_ticks_ms)
          else st.millisecond) := by
  unfold TimeCtx.set_time at hok ⊢
  simp only [Option.getD_some] at hok ⊢
  by_cases hp : st.prev_ticks_ms > 0
  · cases hm : st.millisecond with
    | none => simp [hm, hp] at hok
    | some m =>
      by_cases hs : st.second = some t.second
      · simp [hm, hp, hs]
      · simp [hm, hp, hs]
  · by_cases hs : st.second = some t.second
    · simp [hp, hs]
    · simp [hp, hs]

/-- Witness for the C6 amended statement: a second synthetic call in a state
already holding the same second, with a recorded tick value. -/
theorem C6_amended_millisecond_runs_in_synthetic_mode_witness :
    (TimeCtx.set_time
        ⟨some 2023, some 1, some 1, some 12, some 0, some 0, some 0, some 0, some 1, 100⟩
        (some ⟨2023, 1, 1, 12, 0, 0, 0, 1⟩) ⟨0, 0, 0, 0, 0, 0, 0, 0⟩ 150).1 = Except.ok () ∧
    (TimeCtx.set_time
        ⟨some 2023, some 1, some 1, some 12, some 0, some 0, some 0, some 0, some 1, 100⟩
        (some ⟨2023, 1, 1, 12, 0, 0, 0, 1⟩) ⟨0, 0, 0, 0, 0, 0, 0, 0⟩ 150).2.second
      = some (0 : Int) :=
  ⟨rfl,
   (C6_amended_millisecond_runs_in_synthetic_mode
      ⟨some 2023, some 1, some 1, some 12, some 0, some 0, some 0, some 0, some 1, 100⟩
      ⟨2023, 1, 1, 12, 0, 0, 0, 1⟩ ⟨0, 0, 0, 0, 0, 0, 0, 0⟩ 150 rfl).2.2.2.2.2.1⟩

/-- C7: for well-formed handles and a valid context, a second show with a
context equal on every field except millisecond writes no label text (every
effect of the second call is a rotation), while both calls emit exactly one
rotation effect per handle. -/
theorem C7_change_suppression (st : RendererSt) (c1 c2 : Ctx)
    (hW : ∀ h ∈ st.handles, h.ranges.max_value ≠ 0) (hV : c1.Valid)
    (hy : c1.year = c2.year) (hmo : c1.month = c2.month) (hd : c1.day = c2.day)
    (hh : c1.hour = c2.hour) (hmi : c1.minute = c2.minute) (hs : c1.second = c2.second)
    (hw : c1.weekday = c2.weekday) (hyd : c1.yearday = c2.yearday) :
    ((Renderer.show (Renderer.show st c1).1 c2).2.filter (fun e => !(Eff.isRot e)) = []) ∧
    ((Renderer.show st c1).2.filter Eff.isRot).length = st.handles.length ∧
    ((Renderer.show (Renderer.show st c1).1 c2).2.filter Eff.isRot).length
      = st.handles.length := by
  have hst1_labels : (Renderer.show st c1).1.labels
      = st.labels.map (fun l => { l with value := resolve c1 l.text }) :=
    showLabels_fst c1 st.labels
  have hkey : ∀ l ∈ (Renderer.show st c1).1.labels, resolve c2 l.text = l.value := by
    rw [hst1_labels]
    intro l hm
    rcases List.mem_map.mp hm with ⟨l0, hmem, hl⟩
    rw [← hl]
    simp only []
    exact (resolve_congr c1 c2 l0.text hy hmo hd hh hmi hs hw).symm
  have hsnd : (showLabels c2 (Renderer.show st c1).1.labels).2 = [] :=
    showLabels_snd_nil c2 _ hkey
  have heff : (Renderer.show (Renderer.show st c1).1 c2).2
      = (showLabels c2 (Renderer.show st c1).1.labels).2
        ++ (Renderer.show st c1).1.handles.map
            (fun h => Eff.setRotation h.image
              (handleAngle (Renderer.show st c1).1.use_smooth_handles h.source h.ranges c2)) :=
    rfl
  refine ⟨?_, ?_, ?_⟩
  · rw [heff, hsnd, List.nil_append, List.filter_eq_nil_iff]
    intro e he
    rcases List.mem_map.mp he with ⟨h0, _, rfl⟩
    simp [Eff.isRot]
  · rw [show_filter_rot]
    simp
  · rw [show_filter_rot, show_handles_eq]
    simp

/-- Witness for C7 at a face with one label and one second handle, showing
the same valid context twice. -/
theorem C7_change_suppression_witness :
    ((∀ h ∈ ({ RendererSt.init with
          labels := [{ lv_label := 5, text := pyStr "\x7bHH\x7d", value := [] }],
          handles := [{ image := 6, source := some "second", ranges := ⟨0, 60, 0, 360⟩ }] }
            : RendererSt).handles,
        h.ranges.max_value ≠ 0) ∧
      Ctx.Valid ⟨2023, 1, 1, 12, 0, 0, 0, 0, 1⟩) ∧
    ((Renderer.show
        (Renderer.show
          { RendererSt.init with
              labels := [{ lv_label := 5, text := pyStr "\x7bHH\x7d", value := [] }],
              handles := [{ image := 6, source := some "second", ranges := ⟨0, 60, 0, 360⟩ }] }
          ⟨2023, 1, 1, 12, 0, 0, 0, 0, 1⟩).1
        ⟨2023, 1, 1, 12, 0, 0, 0, 0, 1⟩).2.filter (fun e => !(Eff.isRot e)) = []) := by
  have hW : ∀ h ∈ ({ RendererSt.init with
      labels := [{ lv_label := 5, text := pyStr "\x7bHH\x7d", value := [] }],
      handles := [{ image := 6, source := some "second", ranges := ⟨0, 60, 0, 360⟩ }] }
        : RendererSt).handles, h.ranges.max_value ≠ 0 := by
    intro h hm
    simp only [List.mem_singleton] at hm
    subst hm
    simp
  have hV : Ctx.Valid ⟨2023, 1, 1, 12, 0, 0, 0, 0, 1⟩ := by decide
  exact ⟨⟨hW, hV⟩,
    (C7_change_suppression _ _ _ hW hV rfl rfl rfl rfl rfl rfl rfl rfl).1⟩

/-- C8 counterexample: placeholder resolution is not idempotent.  With day 10,
the template consisting of an outer day-digit-style fragment wrapping the
registered day-second-digit token (the string written with escaped braces in
the statement) resolves to the registered day-first-digit token, which a second
resolution rewrites again. -/
theorem C8_resolve_not_idempotent :
    resolve ⟨2023, 1, 10, 12, 0, 0, 0, 0, 1⟩
        (resolve ⟨2023, 1, 10, 12, 0, 0, 0, 0, 1⟩ (pyStr "\x7bD#\x7bD#1\x7d\x7d"))
      ≠ resolve ⟨2023, 1, 10, 12, 0, 0, 0, 0, 1⟩ (pyStr "\x7bD#\x7bD#1\x7d\x7d") := by
  decide

/-- C8 amended: any string in which no registered token occurs is returned
verbatim by resolve — in particular unknown brace-delimited fragments are
preserved — and re-resolution is a no-op whenever the first resolution output
contains no registered token.  Unconditional idempotence fails because a
substitution can create a registered token. -/
theorem C8_amended_idempotent_when_token_free :
    (∀ (c : Ctx) (s : Str), (∀ kv ∈ PLACEHOLDERS, occurs kv.1 s = false) →
       resolve c s = s) ∧
    (∀ (c : Ctx) (t : Str), (∀ kv ∈ PLACEHOLDERS, occurs kv.1 (resolve c t) = false) →
       resolve c (resolve c t) = resolve c t) := by
  constructor
  · intro c s h
    exact foldl_resolve_keep c PLACEHOLDERS s h
  · intro c t h
    exact foldl_resolve_keep c PLACEHOLDERS _ h

/-- Witness for the C8 amended statement at a concrete token-free string
containing an unknown brace fragment. -/
theorem C8_amended_idempotent_when_token_free_witness :
    (∀ kv ∈ PLACEHOLDERS, occurs kv.1 (pyStr "hello \x7bworld\x7d") = false) ∧
    resolve ⟨2023, 1, 1, 12, 0, 0, 0, 0, 1⟩ (pyStr "hello \x7bworld\x7d")
      = pyStr "hello \x7bworld\x7d" := by
  have h : ∀ kv ∈ PLACEHOLDERS, occurs kv.1 (pyStr "hello \x7bworld\x7d") = false := by
    decide
  exact ⟨h, C8_amended_idempotent_when_token_free.1 ⟨2023, 1, 1, 12, 0, 0, 0, 0, 1⟩ _ h⟩

/-- C9: load never removes or resets prior state: every tracking list of the
previous state is an initial segment of the post-load one (whatever the
outcome), previously cached fonts stay reachable under their keys, and a
subsequent show still emits one rotation effect per handle of the combined
list, so items of both generations keep being updated. -/
theorem C9_load_preserves_previous_generation (st : RendererSt) (w : LvWorld)
    (env : Env) (path : String) (config : FaceConfig) :
    (∃ t, (Renderer.load st w env path config).2.1.labels = st.labels ++ t) ∧
    (∃ t, (Renderer.load st w env path config).2.1.images = st.images ++ t) ∧
    (∃ t, (Renderer.load st w env path config).2.1.gifs = st.gifs ++ t) ∧
    (∃ t, (Renderer.load st w env path config).2.1.handles = st.handles ++ t) ∧
    (∃ t, (Renderer.load st w env path config).2.1.fonts = st.fonts ++ t) ∧
    (∀ (k : String) (v : Nat), List.lookup k st.fonts = some v →
       List.lookup k (Renderer.load st w env path config).2.1.fonts = some v) ∧
    (∀ c : Ctx,
       ((Renderer.show (Renderer.load st w env path config).2.1 c).2.filter Eff.isRot).length
         = (Renderer.load st w env path config).2.1.handles.length) := by
  obtain ⟨h1, h2, h3, h4, h5, h6⟩ := renderer_load_ext st w env path config
  refine ⟨h1, h2, h3, h4, h5, ?_, ?_⟩
  · intro k v hv
    obtain ⟨t5, e5⟩ := h5
    rw [e5]
    exact lookup_append hv
  · intro c
    rw [show_filter_rot]
    simp

end Preview
